import Mathlib

/-!
Verification of the change-detection and notification pipeline of the
AutoUpdatedVPN watcher (src/main.py): persisted document state, SHA-256
content fingerprinting, the check/force-send cycles, and the Telegram
command handlers with their authorization rule.

The embedding is shallow: the Python classes become Lean structures, the
effectful calls (HTTP fetch, Telegram sends, file writes) become explicit
inputs and recorded outputs, and `hashlib.sha256(content.encode("utf-8")).hexdigest()`
is embedded as a full SHA-256 implementation over lists of byte values.
-/

namespace AutoUpdatedVPN

/-! ### SHA-256 over byte lists (hashlib.sha256) -/

/-- Arithmetic is on 32-bit words represented as `Nat` reduced modulo `M32`. -/
def M32 : Nat := 4294967296

/-- Right rotation of a 32-bit word. -/
def rotr (k x : Nat) : Nat := ((x >>> k) ||| (x <<< (32 - k))) % M32

/-- Bitwise complement of a 32-bit word. -/
def not32 (x : Nat) : Nat := Nat.xor x 4294967295

def smallSigma0 (x : Nat) : Nat := Nat.xor (Nat.xor (rotr 7 x) (rotr 18 x)) (x >>> 3)

def smallSigma1 (x : Nat) : Nat := Nat.xor (Nat.xor (rotr 17 x) (rotr 19 x)) (x >>> 10)

def bigSigma0 (x : Nat) : Nat := Nat.xor (Nat.xor (rotr 2 x) (rotr 13 x)) (rotr 22 x)

def bigSigma1 (x : Nat) : Nat := Nat.xor (Nat.xor (rotr 6 x) (rotr 11 x)) (rotr 25 x)

def chFn (x y z : Nat) : Nat := Nat.xor (Nat.land x y) (Nat.land (not32 x) z)

def majFn (x y z : Nat) : Nat := Nat.xor (Nat.xor (Nat.land x y) (Nat.land x z)) (Nat.land y z)

/-- The 64 SHA-256 round constants (FIPS 180-4), as decimal word values. -/
def sha256K : List Nat :=
  [1116352408, 1899447441, 3049323471, 3921009573, 961987163, 1508970993,
   2453635748, 2870763221, 3624381080, 310598401, 607225278, 1426881987,
   1925078388, 2162078206, 2614888103, 3248222580, 3835390401, 4022224774,
   264347078, 604807628, 770255983, 1249150122, 1555081692, 1996064986,
   2554220882, 2821834349, 2952996808, 3210313671, 3336571891, 3584528711,
   113926993, 338241895, 666307205, 773529912, 1294757372, 1396182291,
   1695183700, 1986661051, 2177026350, 2456956037, 2730485921, 2820302411,
   3259730800, 3345764771, 3516065817, 3600352804, 4094571909, 275423344,
   430227734, 506948616, 659060556, 883997877, 958139571, 1322822218,
   1537002063, 1747873779, 1955562222, 2024104815, 2227730452, 2361852424,
   2428436474, 2756734187, 3204031479, 3329325298]

/-- The SHA-256 initial hash value (FIPS 180-4), as decimal word values. -/
def sha256H0 : List Nat :=
  [1779033703, 3144134277, 1013904242, 2773480762,
   1359893119, 2600822924, 528734635, 1541459225]

/-- Big-endian byte expansion of a number to `k` bytes. -/
def toBytesBE : Nat → Nat → List Nat
  | 0, _ => []
  | k + 1, n => toBytesBE k (n / 256) ++ [n % 256]

/-- SHA-256 padding: a 0x80 byte, zeros to 56 mod 64, and the bit length. -/
def sha256Pad (msg : List Nat) : List Nat :=
  msg ++ [0x80] ++ List.replicate ((55 + 64 - msg.length % 64) % 64) 0
      ++ toBytesBE 8 (msg.length * 8)

/-- Big-endian 32-bit words from a byte list. -/
def bytesToWords : List Nat → List Nat
  | a :: b :: c :: d :: rest => (((a * 256 + b) * 256 + c) * 256 + d) :: bytesToWords rest
  | _ => []

/-- Extend a 16-word block by `n` message-schedule words. -/
def schedule (w : List Nat) : Nat → List Nat
  | 0 => w
  | n + 1 =>
    let w' := schedule w n
    let i := w'.length
    w' ++ [(w'.getD (i - 16) 0 + smallSigma0 (w'.getD (i - 15) 0)
            + w'.getD (i - 7) 0 + smallSigma1 (w'.getD (i - 2) 0)) % M32]

/-- One compression round per `(k, w)` pair over the eight working variables. -/
def rounds : List (Nat × Nat) → Nat × Nat × Nat × Nat × Nat × Nat × Nat × Nat →
    Nat × Nat × Nat × Nat × Nat × Nat × Nat × Nat
  | [], st => st
  | (k, w) :: rest, (a, b, c, d, e, f, g, h) =>
    let t1 := (h + bigSigma1 e + chFn e f g + k + w) % M32
    let t2 := (bigSigma0 a + majFn a b c) % M32
    rounds rest ((t1 + t2) % M32, a, b, c, (d + t1) % M32, e, f, g)

/-- SHA-256 compression of one 16-word block into the chaining state. -/
def compress (hs block : List Nat) : List Nat :=
  let ws := schedule block 48
  let a0 := hs.getD 0 0
  let b0 := hs.getD 1 0
  let c0 := hs.getD 2 0
  let d0 := hs.getD 3 0
  let e0 := hs.getD 4 0
  let f0 := hs.getD 5 0
  let g0 := hs.getD 6 0
  let h0 := hs.getD 7 0
  let (a, b, c, d, e, f, g, h) := rounds (sha256K.zip ws) (a0, b0, c0, d0, e0, f0, g0, h0)
  [(a0 + a) % M32, (b0 + b) % M32, (c0 + c) % M32, (d0 + d) % M32,
   (e0 + e) % M32, (f0 + f) % M32, (g0 + g) % M32, (h0 + h) % M32]

/-- Fold the compression over `n` consecutive 64-byte blocks. -/
def sha256Blocks : Nat → List Nat → List Nat → List Nat
  | 0, hs, _ => hs
  | n + 1, hs, bytes => sha256Blocks n (compress hs (bytesToWords (bytes.take 64))) (bytes.drop 64)

/-- SHA-256 digest (eight 32-bit words) of a byte list. -/
def sha256Words (msg : List Nat) : List Nat :=
  let padded := sha256Pad msg
  sha256Blocks (padded.length / 64) sha256H0 padded

def hexDigit (n : Nat) : Char :=
  if n < 10 then Char.ofNat (48 + n) else Char.ofNat (87 + n)

/-- Lowercase big-endian hex rendering of a number on `k` digits. -/
def toHex : Nat → Nat → List Char
  | 0, _ => []
  | k + 1, n => toHex k (n / 16) ++ [hexDigit (n % 16)]

/-- `hexdigest()`: the 64-character lowercase hex string of the digest words. -/
def wordsToHex (ws : List Nat) : String := String.mk (ws.flatMap (toHex 8))

/-- UTF-8 encoding of a single code point, as byte values. -/
def utf8EncodeCodepoint (c : Nat) : List Nat :=
  if c < 0x80 then [c]
  else if c < 0x800 then [0xC0 + c / 0x40, 0x80 + c % 0x40]
  else if c < 0x10000 then
    [0xE0 + c / 0x1000, 0x80 + (c / 0x40) % 0x40, 0x80 + c % 0x40]
  else
    [0xF0 + c / 0x40000, 0x80 + (c / 0x1000) % 0x40, 0x80 + (c / 0x40) % 0x40, 0x80 + c % 0x40]

/-- `content.encode("utf-8")`: the UTF-8 byte values of a string. -/
def strBytes (s : String) : List Nat := s.data.flatMap fun c => utf8EncodeCodepoint c.toNat

/-- `hashlib.sha256(content.encode("utf-8")).hexdigest()` (GitHubDocumentWatcher._hash). -/
def sha256hex (content : String) : String := wordsToHex (sha256Words (strBytes content))


/-! ### Data model: DocumentState and its JSON persistence -/

/-- The three persisted fields of `DocumentState` (`str | None` in the source). -/
structure DocumentState where
  last_check_at : Option String
  last_send_at : Option String
  last_hash : Option String
deriving DecidableEq, Repr

/-- JSON values that can appear under the three state keys (string or null). -/
inductive JVal
  | jnull
  | jstr (s : String)
deriving DecidableEq, Repr

/-- A parsed JSON object, as an association list of keys to values. -/
def JObj : Type := List (String × JVal)

/-- `data.get(key)`: `None` both when the key is missing and when it is null. -/
def jget (data : JObj) (key : String) : Option String :=
  match List.lookup key data with
  | some (JVal.jstr s) => some s
  | _ => none

/-- `DocumentState.load` reading the three fields from an existing JSON file. -/
def DocumentState.load_fields (data : JObj) : DocumentState :=
  { last_check_at := jget data "last_check_at"
    last_send_at := jget data "last_send_at"
    last_hash := jget data "last_hash" }

/-- Encoding of a `str | None` field into JSON. -/
def encodeField : Option String → JVal
  | none => JVal.jnull
  | some s => JVal.jstr s

/-- `DocumentState.save`: the JSON object written to the state file. -/
def DocumentState.save_json (s : DocumentState) : JObj :=
  [("last_check_at", encodeField s.last_check_at),
   ("last_send_at", encodeField s.last_send_at),
   ("last_hash", encodeField s.last_hash)]

/-! ### GitHubDocumentWatcher -/

/-- `DOCUMENT_NAME` from the source. -/
def DOCUMENT_NAME : String := "github_document.txt"

/-- Effects issued through the Telegram bot, recorded instead of performed. -/
inductive BotAction
  | sendDocument (chat_id : String) (name : String) (data : List Nat) (caption : String)
  | sendMessage (chat_id : Int) (text : String)
  | replyTo (text : String)
  | answerCallbackQuery (text : String)
deriving DecidableEq, Repr

/-- `GitHubDocumentWatcher.send`: always a named document upload with a fixed
caption — there is no plain-text branch in the source. -/
def GitHubDocumentWatcher.send (chat_id : String) (content : String) : BotAction :=
  BotAction.sendDocument chat_id DOCUMENT_NAME (strBytes content) "📄 Документ обновлен"

/-- Errors a watch cycle can raise: `fetch` (requests) or `send` (telebot). -/
inductive WatchError
  | fetchErr (msg : String)
  | deliveryErr (msg : String)
deriving DecidableEq, Repr

/-- The message text of a raised error (`str(e)` in the handlers). -/
def WatchError.text : WatchError → String
  | WatchError.fetchErr m => m
  | WatchError.deliveryErr m => m

/-- One cycle's interaction with the outside world: the watcher's configured
chat, the outcome of the HTTP fetch, whether the Telegram delivery raises,
and the two wall-clock readings `_now()` can make. -/
structure Env where
  chat_id : String
  fetched : Except String String
  sendFail : Option String
  now1 : String
  now2 : String
deriving Repr

/-- The observable result of one watch cycle: the in-memory state after the
call, what `state.save()` persisted (if it ran), the bot calls made, and the
exception that propagated (if any). -/
structure CycleResult where
  state : DocumentState
  persisted : Option DocumentState
  actions : List BotAction
  err : Option WatchError
deriving Repr

/-- `GitHubDocumentWatcher.check_and_send`: set `last_check_at`, fetch, hash,
compare with `last_hash`; if equal, save and return; otherwise send, update
`last_hash` and `last_send_at`, and save. A raise leaves the fields mutated
so far in memory and persists nothing. -/
def check_and_send (env : Env) (s : DocumentState) : CycleResult :=
  let s1 := { s with last_check_at := some env.now1 }
  match env.fetched with
  | Except.error e => ⟨s1, none, [], some (WatchError.fetchErr e)⟩
  | Except.ok content =>
    let current_hash := sha256hex content
    if some current_hash = s1.last_hash then
      ⟨s1, some s1, [], none⟩
    else
      match env.sendFail with
      | some e =>
        ⟨s1, none, [GitHubDocumentWatcher.send env.chat_id content],
          some (WatchError.deliveryErr e)⟩
      | none =>
        let s2 := { s1 with last_hash := some current_hash, last_send_at := some env.now2 }
        ⟨s2, some s2, [GitHubDocumentWatcher.send env.chat_id content], none⟩

/-- `GitHubDocumentWatcher.force_send`: set `last_check_at`, fetch, send
unconditionally, then set `last_hash` and `last_send_at` and save. -/
def force_send (env : Env) (s : DocumentState) : CycleResult :=
  let s1 := { s with last_check_at := some env.now1 }
  match env.fetched with
  | Except.error e => ⟨s1, none, [], some (WatchError.fetchErr e)⟩
  | Except.ok content =>
    match env.sendFail with
    | some e =>
      ⟨s1, none, [GitHubDocumentWatcher.send env.chat_id content],
        some (WatchError.deliveryErr e)⟩
    | none =>
      let s2 := { s1 with last_hash := some (sha256hex content),
                          last_send_at := some env.now2 }
      ⟨s2, some s2, [GitHubDocumentWatcher.send env.chat_id content], none⟩

/-! ### TelegramBotApp: authorization and command handlers

The app's configuration (`CHAT_ID`, read from the environment at startup) is
passed explicitly as `cfg`. Telegram chat identifiers are integers; the
configured identity is the string from the environment. -/

/-- `TelegramBotApp._is_authorized`: `str(chat_id) == str(CHAT_ID)`. -/
def is_authorized (cfg : String) (chat_id : Int) : Bool :=
  toString chat_id == cfg

/-- Rendering of a `str | None` field inside an f-string: Python prints the
value itself, and the literal `None` for an absent field. -/
def renderField : Option String → String
  | some s => s
  | none => "None"

/-- The `/status` handler's message text. -/
def status_text (s : DocumentState) : String :=
  "📊 Статус документа\n\n"
    ++ "🕒 Последняя проверка: " ++ renderField s.last_check_at ++ "\n"
    ++ "📤 Последняя отправка: " ++ renderField s.last_send_at ++ "\n"
    ++ "🔐 Хэш: " ++ renderField s.last_hash

/-- The observable result of one command handler invocation. -/
structure HandlerResult where
  state : DocumentState
  persisted : Option DocumentState
  actions : List BotAction
deriving Repr

/-- The `/status` handler: replies with the three fields, touching nothing. -/
def status_handler (s : DocumentState) : HandlerResult :=
  ⟨s, none, [BotAction.replyTo (status_text s)]⟩

/-- The `/send_now` handler: authorization gate, then `force_send`; an access
denial answers with an alert and returns; a raised error is reported back,
success is silent. -/
def send_now_handler (cfg : String) (env : Env) (chat_id : Int) (s : DocumentState) :
    HandlerResult :=
  if ¬ is_authorized cfg chat_id then
    ⟨s, none, [BotAction.answerCallbackQuery "⛔ Нет доступа"]⟩
  else
    let r := force_send env s
    match r.err with
    | none => ⟨r.state, r.persisted, r.actions⟩
    | some e => ⟨r.state, r.persisted, r.actions ++ [BotAction.replyTo ("❌ Ошибка: " ++ e.text)]⟩

/-- The `/check` handler: authorization gate, then `check_and_send`; success
is acknowledged, a raised error is reported back. -/
def check_handler (cfg : String) (env : Env) (chat_id : Int) (s : DocumentState) :
    HandlerResult :=
  if ¬ is_authorized cfg chat_id then
    ⟨s, none, [BotAction.answerCallbackQuery "⛔ Нет доступа"]⟩
  else
    let r := check_and_send env s
    match r.err with
    | none => ⟨r.state, r.persisted, r.actions ++ [BotAction.replyTo "✅ Проверка завершена"]⟩
    | some e => ⟨r.state, r.persisted, r.actions ++ [BotAction.replyTo ("❌ Ошибка: " ++ e.text)]⟩

/-- Whether a bot action is a document-attachment delivery. -/
def BotAction.isDocumentDelivery : BotAction → Bool
  | BotAction.sendDocument _ _ _ _ => true
  | _ => false

/-- Whether a bot action is a plain-text message delivery. -/
def BotAction.isTextDelivery : BotAction → Bool
  | BotAction.sendMessage _ _ => true
  | _ => false

/-! ### Claim theorems -/

/-- Claim C1: when the stored `last_hash` equals the fingerprint of the fetched
content, `check_and_send` sends nothing, persists the state with only the check
time updated, and leaves `last_hash` and `last_send_at` unchanged; and two
consecutive `check_and_send` calls on unchanged remote content produce at most
one notification in total with `last_hash` stable across both calls. -/
theorem c1_idempotent_recheck :
    (∀ (env : Env) (s : DocumentState) (c : String),
      env.fetched = Except.ok c → s.last_hash = some (sha256hex c) →
      (check_and_send env s).actions = []
        ∧ (check_and_send env s).persisted = some (check_and_send env s).state
        ∧ (check_and_send env s).state.last_hash = s.last_hash
        ∧ (check_and_send env s).state.last_send_at = s.last_send_at
        ∧ (check_and_send env s).state.last_check_at = some env.now1
        ∧ (check_and_send env s).err = none)
    ∧ (∀ (env1 env2 : Env) (s : DocumentState) (c : String),
      env1.fetched = Except.ok c → env2.fetched = Except.ok c → env1.sendFail = none →
      ((check_and_send env1 s).actions
          ++ (check_and_send env2 (check_and_send env1 s).state).actions).length ≤ 1
        ∧ (check_and_send env2 (check_and_send env1 s).state).state.last_hash
            = (check_and_send env1 s).state.last_hash) := by
  constructor
  · intro env s c hf hh
    simp [check_and_send, hf, hh]
  · intro env1 env2 s c hf1 hf2 hsf
    by_cases hc : some (sha256hex c) = s.last_hash
    · simp [check_and_send, hf1, hf2, ← hc]
    · simp [check_and_send, hf1, hf2, hsf, hc]

/-- Claim C1 witness: both parts applied at concrete inputs. -/
theorem c1_idempotent_recheck_witness :
    ((check_and_send ⟨"1", Except.ok "a", none, "t1", "t2"⟩
        ⟨some "t0", none, some (sha256hex "a")⟩).actions = []
      ∧ (check_and_send ⟨"1", Except.ok "a", none, "t1", "t2"⟩
          ⟨some "t0", none, some (sha256hex "a")⟩).persisted
          = some (check_and_send ⟨"1", Except.ok "a", none, "t1", "t2"⟩
              ⟨some "t0", none, some (sha256hex "a")⟩).state
      ∧ (check_and_send ⟨"1", Except.ok "a", none, "t1", "t2"⟩
          ⟨some "t0", none, some (sha256hex "a")⟩).state.last_hash
          = (⟨some "t0", none, some (sha256hex "a")⟩ : DocumentState).last_hash
      ∧ (check_and_send ⟨"1", Except.ok "a", none, "t1", "t2"⟩
          ⟨some "t0", none, some (sha256hex "a")⟩).state.last_send_at
          = (⟨some "t0", none, some (sha256hex "a")⟩ : DocumentState).last_send_at
      ∧ (check_and_send ⟨"1", Except.ok "a", none, "t1", "t2"⟩
          ⟨some "t0", none, some (sha256hex "a")⟩).state.last_check_at = some "t1"
      ∧ (check_and_send ⟨"1", Except.ok "a", none, "t1", "t2"⟩
          ⟨some "t0", none, some (sha256hex "a")⟩).err = none)
    ∧ (((check_and_send ⟨"1", Except.ok "a", none, "t1", "t2"⟩ ⟨none, none, none⟩).actions
          ++ (check_and_send ⟨"1", Except.ok "a", none, "t3", "t4"⟩
              (check_and_send ⟨"1", Except.ok "a", none, "t1", "t2"⟩
                ⟨none, none, none⟩).state).actions).length ≤ 1
      ∧ (check_and_send ⟨"1", Except.ok "a", none, "t3", "t4"⟩
            (check_and_send ⟨"1", Except.ok "a", none, "t1", "t2"⟩
              ⟨none, none, none⟩).state).state.last_hash
          = (check_and_send ⟨"1", Except.ok "a", none, "t1", "t2"⟩
              ⟨none, none, none⟩).state.last_hash) :=
  ⟨c1_idempotent_recheck.1 ⟨"1", Except.ok "a", none, "t1", "t2"⟩
      ⟨some "t0", none, some (sha256hex "a")⟩ "a" rfl rfl,
   c1_idempotent_recheck.2 ⟨"1", Except.ok "a", none, "t1", "t2"⟩
      ⟨"1", Except.ok "a", none, "t3", "t4"⟩ ⟨none, none, none⟩ "a" rfl rfl rfl⟩

/-- Claim C2: after every successfully completed cycle the persisted
`last_hash` equals the SHA-256 fingerprint of the content fetched during that
cycle; and fetching content A then content B with distinct fingerprints via two
`check_and_send` calls sends exactly one notification on the second call and
leaves `last_hash` equal to the fingerprint of B. -/
theorem c2_hash_reflects_fetch :
    (∀ (env : Env) (s : DocumentState) (c : String),
      env.fetched = Except.ok c → (check_and_send env s).err = none →
      (check_and_send env s).state.last_hash = some (sha256hex c)
        ∧ (check_and_send env s).persisted = some (check_and_send env s).state)
    ∧ (∀ (env : Env) (s : DocumentState) (c : String),
      env.fetched = Except.ok c → (force_send env s).err = none →
      (force_send env s).state.last_hash = some (sha256hex c)
        ∧ (force_send env s).persisted = some (force_send env s).state)
    ∧ (∀ (env1 env2 : Env) (s : DocumentState) (a b : String),
      env1.fetched = Except.ok a → env1.sendFail = none →
      env2.fetched = Except.ok b → env2.sendFail = none →
      sha256hex a ≠ sha256hex b →
      (check_and_send env2 (check_and_send env1 s).state).actions.length = 1
        ∧ (check_and_send env2 (check_and_send env1 s).state).state.last_hash
            = some (sha256hex b)) := by
  refine ⟨?_, ?_, ?_⟩
  · intro env s c hf herr
    by_cases hc : some (sha256hex c) = s.last_hash
    · simp [check_and_send, hf, ← hc]
    · rcases hsf : env.sendFail with _ | e
      · simp [check_and_send, hf, hc, hsf]
      · exfalso
        simp [check_and_send, hf, hc, hsf] at herr
  · intro env s c hf herr
    rcases hsf : env.sendFail with _ | e
    · simp [force_send, hf, hsf]
    · exfalso
      simp [force_send, hf, hsf] at herr
  · intro env1 env2 s a b hf1 hsf1 hf2 hsf2 hab
    have h1 : (check_and_send env1 s).state.last_hash = some (sha256hex a) := by
      by_cases hc : some (sha256hex a) = s.last_hash
      · simp [check_and_send, hf1, ← hc]
      · simp [check_and_send, hf1, hsf1, hc]
    generalize hS : (check_and_send env1 s).state = s1 at h1 ⊢
    have hne : ¬ some (sha256hex b) = s1.last_hash := by
      rw [h1]
      simp [Ne.symm hab]
    simp [check_and_send, hf2, hsf2, hne]

/-- Claim C2 witness: the invariant applied to a no-change check, to a forced
send, and to the change scenario with contents "a" then "b". -/
theorem c2_hash_reflects_fetch_witness :
    ((check_and_send ⟨"1", Except.ok "a", none, "t1", "t2"⟩
        ⟨none, none, none⟩).state.last_hash = some (sha256hex "a")
      ∧ (check_and_send ⟨"1", Except.ok "a", none, "t1", "t2"⟩
          ⟨none, none, none⟩).persisted
          = some (check_and_send ⟨"1", Except.ok "a", none, "t1", "t2"⟩
              ⟨none, none, none⟩).state)
    ∧ ((force_send ⟨"1", Except.ok "a", none, "t1", "t2"⟩
        ⟨none, none, none⟩).state.last_hash = some (sha256hex "a")
      ∧ (force_send ⟨"1", Except.ok "a", none, "t1", "t2"⟩
          ⟨none, none, none⟩).persisted
          = some (force_send ⟨"1", Except.ok "a", none, "t1", "t2"⟩
              ⟨none, none, none⟩).state)
    ∧ ((check_and_send ⟨"1", Except.ok "b", none, "t3", "t4"⟩
          (check_and_send ⟨"1", Except.ok "a", none, "t1", "t2"⟩
            ⟨none, none, none⟩).state).actions.length = 1
      ∧ (check_and_send ⟨"1", Except.ok "b", none, "t3", "t4"⟩
            (check_and_send ⟨"1", Except.ok "a", none, "t1", "t2"⟩
              ⟨none, none, none⟩).state).state.last_hash = some (sha256hex "b")) :=
  ⟨c2_hash_reflects_fetch.1 ⟨"1", Except.ok "a", none, "t1", "t2"⟩ ⟨none, none, none⟩
      "a" rfl rfl,
   c2_hash_reflects_fetch.2.1 ⟨"1", Except.ok "a", none, "t1", "t2"⟩ ⟨none, none, none⟩
      "a" rfl rfl,
   c2_hash_reflects_fetch.2.2 ⟨"1", Except.ok "a", none, "t1", "t2"⟩
      ⟨"1", Except.ok "b", none, "t3", "t4"⟩ ⟨none, none, none⟩ "a" "b"
      rfl rfl rfl rfl (by decide)⟩

/-- Claim C3: `force_send` invokes the notifier exactly once with the fetched
content for every state, and on success sets `last_hash` to the content's
fingerprint, sets `last_send_at`, and persists the state. -/
theorem c3_force_send_always_notifies :
    ∀ (env : Env) (s : DocumentState) (c : String),
      env.fetched = Except.ok c →
      (force_send env s).actions = [GitHubDocumentWatcher.send env.chat_id c]
        ∧ (env.sendFail = none →
            (force_send env s).state.last_hash = some (sha256hex c)
              ∧ (force_send env s).state.last_send_at = some env.now2
              ∧ (force_send env s).persisted = some (force_send env s).state) := by
  intro env s c hf
  rcases hsf : env.sendFail with _ | e
  · simp [force_send, hf, hsf]
  · simp [force_send, hf, hsf]

/-- Claim C3 witness: a forced send from a state whose stored hash already
equals the fingerprint of the fetched content still notifies once. -/
theorem c3_force_send_always_notifies_witness :
    (force_send ⟨"1", Except.ok "a", none, "t1", "t2"⟩
        ⟨some "t0", some "t0", some (sha256hex "a")⟩).actions
      = [GitHubDocumentWatcher.send "1" "a"]
    ∧ (force_send ⟨"1", Except.ok "a", none, "t1", "t2"⟩
          ⟨some "t0", some "t0", some (sha256hex "a")⟩).state.last_hash
        = some (sha256hex "a")
    ∧ (force_send ⟨"1", Except.ok "a", none, "t1", "t2"⟩
          ⟨some "t0", some "t0", some (sha256hex "a")⟩).state.last_send_at = some "t2"
    ∧ (force_send ⟨"1", Except.ok "a", none, "t1", "t2"⟩
          ⟨some "t0", some "t0", some (sha256hex "a")⟩).persisted
        = some (force_send ⟨"1", Except.ok "a", none, "t1", "t2"⟩
            ⟨some "t0", some "t0", some (sha256hex "a")⟩).state := by
  have h := c3_force_send_always_notifies ⟨"1", Except.ok "a", none, "t1", "t2"⟩
      ⟨some "t0", some "t0", some (sha256hex "a")⟩ "a" rfl
  exact ⟨h.1, (h.2 rfl).1, (h.2 rfl).2.1, (h.2 rfl).2.2⟩

/-- Claim C5 counterexample: a `force_send` whose fetch raises leaves a partial
in-memory update — the state differs from the original (`last_check_at` was
already advanced), yet `last_send_at` and `last_hash` still hold the old
values, so neither "all three fields reflect the new attempt" nor "none do". -/
theorem c5_counterexample :
    ¬ ((force_send ⟨"1", Except.error "boom", none, "t1", "t2"⟩
          ⟨some "t0", some "t0", some "h0"⟩).state
        = (⟨some "t0", some "t0", some "h0"⟩ : DocumentState)
      ∨ ((force_send ⟨"1", Except.error "boom", none, "t1", "t2"⟩
            ⟨some "t0", some "t0", some "h0"⟩).state.last_check_at ≠ some "t0"
        ∧ (force_send ⟨"1", Except.error "boom", none, "t1", "t2"⟩
            ⟨some "t0", some "t0", some "h0"⟩).state.last_send_at ≠ some "t0"
        ∧ (force_send ⟨"1", Except.error "boom", none, "t1", "t2"⟩
            ⟨some "t0", some "t0", some "h0"⟩).state.last_hash ≠ some "h0")) := by
  decide

/-- Claim C5 amended: when `force_send` fails at fetch or delivery, nothing is
persisted and `last_hash` and `last_send_at` keep their old values; only the
in-memory `last_check_at` is advanced to the attempt time. -/
theorem c5_amended_failure_state :
    ∀ (env : Env) (s : DocumentState),
      (force_send env s).err ≠ none →
      (force_send env s).persisted = none
        ∧ (force_send env s).state.last_hash = s.last_hash
        ∧ (force_send env s).state.last_send_at = s.last_send_at
        ∧ (force_send env s).state.last_check_at = some env.now1 := by
  intro env s herr
  rcases hf : env.fetched with e | content
  · simp [force_send, hf]
  · rcases hsf : env.sendFail with _ | e
    · exfalso
      simp [force_send, hf, hsf] at herr
    · simp [force_send, hf, hsf]

/-- Claim C5 amended witness: the failure invariant at a concrete failed fetch. -/
theorem c5_amended_failure_state_witness :
    (force_send ⟨"1", Except.error "boom", none, "t1", "t2"⟩
        ⟨some "t0", some "t0", some "h0"⟩).persisted = none
    ∧ (force_send ⟨"1", Except.error "boom", none, "t1", "t2"⟩
          ⟨some "t0", some "t0", some "h0"⟩).state.last_hash = some "h0"
    ∧ (force_send ⟨"1", Except.error "boom", none, "t1", "t2"⟩
          ⟨some "t0", some "t0", some "h0"⟩).state.last_send_at = some "t0"
    ∧ (force_send ⟨"1", Except.error "boom", none, "t1", "t2"⟩
          ⟨some "t0", some "t0", some "h0"⟩).state.last_check_at = some "t1" :=
  c5_amended_failure_state ⟨"1", Except.error "boom", none, "t1", "t2"⟩
    ⟨some "t0", some "t0", some "h0"⟩ (by decide)

/-- Claim C6: when the fetch inside `check_and_send` fails, the cycle raises a
fetch error, attempts no notification, persists nothing, and leaves the state
with only `last_check_at` advanced; moreover no failed cycle (fetch or
delivery) ever modifies `last_hash` or `last_send_at`. -/
theorem c6_fetch_failure_check :
    (∀ (env : Env) (s : DocumentState) (e : String),
      env.fetched = Except.error e →
      (check_and_send env s).err = some (WatchError.fetchErr e)
        ∧ (check_and_send env s).actions = []
        ∧ (check_and_send env s).persisted = none
        ∧ (check_and_send env s).state.last_check_at = some env.now1
        ∧ (check_and_send env s).state.last_hash = s.last_hash
        ∧ (check_and_send env s).state.last_send_at = s.last_send_at)
    ∧ (∀ (env : Env) (s : DocumentState),
      (check_and_send env s).err ≠ none →
      (check_and_send env s).persisted = none
        ∧ (check_and_send env s).state.last_hash = s.last_hash
        ∧ (check_and_send env s).state.last_send_at = s.last_send_at) := by
  constructor
  · intro env s e hf
    simp [check_and_send, hf]
  · intro env s herr
    rcases hf : env.fetched with e | content
    · simp [check_and_send, hf]
    · by_cases hc : some (sha256hex content) = s.last_hash
      · exfalso
        simp [check_and_send, hf, hc] at herr
      · rcases hsf : env.sendFail with _ | e
        · exfalso
          simp [check_and_send, hf, hc, hsf] at herr
        · simp [check_and_send, hf, hc, hsf]

/-- Claim C6 witness: a concrete failed fetch during a check cycle. -/
theorem c6_fetch_failure_check_witness :
    ((check_and_send ⟨"1", Except.error "boom", none, "t1", "t2"⟩
        ⟨some "t0", some "t0", some "h0"⟩).err = some (WatchError.fetchErr "boom")
      ∧ (check_and_send ⟨"1", Except.error "boom", none, "t1", "t2"⟩
          ⟨some "t0", some "t0", some "h0"⟩).actions = []
      ∧ (check_and_send ⟨"1", Except.error "boom", none, "t1", "t2"⟩
          ⟨some "t0", some "t0", some "h0"⟩).persisted = none
      ∧ (check_and_send ⟨"1", Except.error "boom", none, "t1", "t2"⟩
          ⟨some "t0", some "t0", some "h0"⟩).state.last_check_at = some "t1"
      ∧ (check_and_send ⟨"1", Except.error "boom", none, "t1", "t2"⟩
          ⟨some "t0", some "t0", some "h0"⟩).state.last_hash = some "h0"
      ∧ (check_and_send ⟨"1", Except.error "boom", none, "t1", "t2"⟩
          ⟨some "t0", some "t0", some "h0"⟩).state.last_send_at = some "t0")
    ∧ ((check_and_send ⟨"1", Except.error "boom", none, "t1", "t2"⟩
          ⟨some "t0", some "t0", some "h0"⟩).persisted = none
      ∧ (check_and_send ⟨"1", Except.error "boom", none, "t1", "t2"⟩
          ⟨some "t0", some "t0", some "h0"⟩).state.last_hash = some "h0"
      ∧ (check_and_send ⟨"1", Except.error "boom", none, "t1", "t2"⟩
          ⟨some "t0", some "t0", some "h0"⟩).state.last_send_at = some "t0") :=
  ⟨c6_fetch_failure_check.1 ⟨"1", Except.error "boom", none, "t1", "t2"⟩
      ⟨some "t0", some "t0", some "h0"⟩ "boom" rfl,
   c6_fetch_failure_check.2 ⟨"1", Except.error "boom", none, "t1", "t2"⟩
      ⟨some "t0", some "t0", some "h0"⟩ (by decide)⟩

/-- Claim C4: a state-mutating command (`send_now`, `check`) from any chat
identity other than the configured one runs no watcher operation — the state
is unchanged, nothing is persisted, and the only bot call is the access-denied
response; from the configured identity the handler runs the corresponding
watcher operation on the state. -/
theorem c4_authorization :
    ∀ (cfg : String) (env : Env) (chat : Int) (s : DocumentState),
      (is_authorized cfg chat = false →
        send_now_handler cfg env chat s
            = ⟨s, none, [BotAction.answerCallbackQuery "⛔ Нет доступа"]⟩
          ∧ check_handler cfg env chat s
            = ⟨s, none, [BotAction.answerCallbackQuery "⛔ Нет доступа"]⟩)
      ∧ (is_authorized cfg chat = true →
        (send_now_handler cfg env chat s).state = (force_send env s).state
          ∧ (send_now_handler cfg env chat s).persisted = (force_send env s).persisted
          ∧ (check_handler cfg env chat s).state = (check_and_send env s).state
          ∧ (check_handler cfg env chat s).persisted = (check_and_send env s).persisted
          ∧ ((force_send env s).err = none →
              (send_now_handler cfg env chat s).actions = (force_send env s).actions)
          ∧ ((check_and_send env s).err = none →
              (check_handler cfg env chat s).actions
                = (check_and_send env s).actions
                    ++ [BotAction.replyTo "✅ Проверка завершена"])) := by
  intro cfg env chat s
  constructor
  · intro hauth
    constructor
    · simp [send_now_handler, hauth]
    · simp [check_handler, hauth]
  · intro hauth
    refine ⟨?_, ?_, ?_, ?_, ?_, ?_⟩
    · rcases he : (force_send env s).err with _ | e <;>
        simp [send_now_handler, hauth, he]
    · rcases he : (force_send env s).err with _ | e <;>
        simp [send_now_handler, hauth, he]
    · rcases he : (check_and_send env s).err with _ | e <;>
        simp [check_handler, hauth, he]
    · rcases he : (check_and_send env s).err with _ | e <;>
        simp [check_handler, hauth, he]
    · intro he
      simp [send_now_handler, hauth, he]
    · intro he
      simp [check_handler, hauth, he]

/-- Claim C4 witness: chat 2 is denied under configuration "1" with no state
change; chat 1 is accepted and the watcher operations run. -/
theorem c4_authorization_witness :
    (send_now_handler "1" ⟨"1", Except.ok "a", none, "t1", "t2"⟩ 2
        ⟨some "t0", some "t0", some "h0"⟩
      = ⟨⟨some "t0", some "t0", some "h0"⟩, none,
          [BotAction.answerCallbackQuery "⛔ Нет доступа"]⟩
      ∧ check_handler "1" ⟨"1", Except.ok "a", none, "t1", "t2"⟩ 2
          ⟨some "t0", some "t0", some "h0"⟩
        = ⟨⟨some "t0", some "t0", some "h0"⟩, none,
            [BotAction.answerCallbackQuery "⛔ Нет доступа"]⟩)
    ∧ ((send_now_handler "1" ⟨"1", Except.ok "a", none, "t1", "t2"⟩ 1
          ⟨some "t0", some "t0", some "h0"⟩).state
        = (force_send ⟨"1", Except.ok "a", none, "t1", "t2"⟩
            ⟨some "t0", some "t0", some "h0"⟩).state
      ∧ (check_handler "1" ⟨"1", Except.ok "a", none, "t1", "t2"⟩ 1
          ⟨some "t0", some "t0", some "h0"⟩).state
        = (check_and_send ⟨"1", Except.ok "a", none, "t1", "t2"⟩
            ⟨some "t0", some "t0", some "h0"⟩).state) :=
  ⟨(c4_authorization "1" ⟨"1", Except.ok "a", none, "t1", "t2"⟩ 2
      ⟨some "t0", some "t0", some "h0"⟩).1 (by decide),
   ⟨((c4_authorization "1" ⟨"1", Except.ok "a", none, "t1", "t2"⟩ 1
        ⟨some "t0", some "t0", some "h0"⟩).2 (by decide)).1,
    ((c4_authorization "1" ⟨"1", Except.ok "a", none, "t1", "t2"⟩ 1
        ⟨some "t0", some "t0", some "h0"⟩).2 (by decide)).2.2.1⟩⟩

/-- Claim C7 counterexample: there is no positive size threshold below which
content is delivered as a plain text message — `GitHubDocumentWatcher.send`
has no text branch, so even the empty content goes out as an attachment. -/
theorem c7_counterexample :
    ¬ ∃ T : Nat, 0 < T ∧ ∀ content : String,
        ((strBytes content).length < T →
          (GitHubDocumentWatcher.send "1" content).isTextDelivery = true)
        ∧ (T ≤ (strBytes content).length →
          (GitHubDocumentWatcher.send "1" content).isDocumentDelivery = true) := by
  rintro ⟨T, hT, h⟩
  have h0 := (h "").1 (by rw [show (strBytes "").length = 0 from rfl]; exact hT)
  exact absurd h0 (by decide)

/-- Claim C7 amended: every content, of any size, is delivered as a file
attachment named `DOCUMENT_NAME` carrying the content's UTF-8 bytes and the
fixed caption; no content is ever delivered as a plain text message. -/
theorem c7_amended_always_attachment :
    ∀ (chat content : String),
      GitHubDocumentWatcher.send chat content
          = BotAction.sendDocument chat DOCUMENT_NAME (strBytes content)
              "📄 Документ обновлен"
        ∧ (GitHubDocumentWatcher.send chat content).isDocumentDelivery = true
        ∧ (GitHubDocumentWatcher.send chat content).isTextDelivery = false := by
  intro chat content
  exact ⟨rfl, rfl, rfl⟩

/-- Claim C8: loading the three state fields back from the JSON object written
by `save` restores them exactly — load after save is the identity on
`last_check_at`, `last_send_at`, `last_hash`. -/
theorem c8_save_load_roundtrip :
    ∀ s : DocumentState,
      DocumentState.load_fields (DocumentState.save_json s) = s := by
  intro s
  obtain ⟨a, b, c⟩ := s
  cases a <;> cases b <;> cases c <;> rfl

/-- Claim C9 counterexample: the status text renders an absent field as the
literal `None` — an explicit non-empty marker, but not a "never" marker as the
claim states. -/
theorem c9_counterexample :
    status_text ⟨none, none, none⟩
        = "📊 Статус документа\n\n🕒 Последняя проверка: None\n"
            ++ "📤 Последняя отправка: None\n🔐 Хэш: None"
      ∧ renderField none ≠ "never" := by
  constructor
  · rfl
  · decide

/-- Claim C9 amended: the status command reports the three state fields
verbatim and renders every absent field as the explicit non-empty marker
`None`, never as an empty string, without touching the state. -/
theorem c9_amended_status_fields :
    ∀ s : DocumentState,
      (status_handler s).state = s
        ∧ (status_handler s).persisted = none
        ∧ (status_handler s).actions = [BotAction.replyTo (status_text s)]
        ∧ status_text s
            = "📊 Статус документа\n\n"
                ++ "🕒 Последняя проверка: " ++ renderField s.last_check_at ++ "\n"
                ++ "📤 Последняя отправка: " ++ renderField s.last_send_at ++ "\n"
                ++ "🔐 Хэш: " ++ renderField s.last_hash
        ∧ (∀ v : String, renderField (some v) = v)
        ∧ renderField none = "None"
        ∧ renderField none ≠ "" := by
  intro s
  refine ⟨rfl, rfl, rfl, rfl, fun v => rfl, rfl, by decide⟩

/-- Claim C10: loading from an existing JSON object that lacks some of the
three keys does not fail — each missing key leaves the corresponding field
`None`, while keys that are present are loaded. -/
theorem c10_load_missing_keys :
    ∀ data : JObj,
      (List.lookup "last_check_at" data = none →
        (DocumentState.load_fields data).last_check_at = none)
      ∧ (List.lookup "last_send_at" data = none →
        (DocumentState.load_fields data).last_send_at = none)
      ∧ (List.lookup "last_hash" data = none →
        (DocumentState.load_fields data).last_hash = none)
      ∧ (∀ v : String, List.lookup "last_check_at" data = some (JVal.jstr v) →
        (DocumentState.load_fields data).last_check_at = some v)
      ∧ (∀ v : String, List.lookup "last_send_at" data = some (JVal.jstr v) →
        (DocumentState.load_fields data).last_send_at = some v)
      ∧ (∀ v : String, List.lookup "last_hash" data = some (JVal.jstr v) →
        (DocumentState.load_fields data).last_hash = some v) := by
  intro data
  refine ⟨fun h => ?_, fun h => ?_, fun h => ?_,
    fun v h => ?_, fun v h => ?_, fun v h => ?_⟩ <;>
    simp [DocumentState.load_fields, jget, h]

/-- Claim C10 witness: a file holding only `last_send_at` loads with the two
missing fields absent and the present one restored. -/
theorem c10_load_missing_keys_witness :
    (DocumentState.load_fields [("last_send_at", JVal.jstr "x")]).last_check_at = none
    ∧ (DocumentState.load_fields [("last_send_at", JVal.jstr "x")]).last_send_at = some "x"
    ∧ (DocumentState.load_fields [("last_send_at", JVal.jstr "x")]).last_hash = none :=
  ⟨(c10_load_missing_keys [("last_send_at", JVal.jstr "x")]).1 rfl,
   (c10_load_missing_keys [("last_send_at", JVal.jstr "x")]).2.2.2.2.1 "x" rfl,
   (c10_load_missing_keys [("last_send_at", JVal.jstr "x")]).2.2.1 rfl⟩

end AutoUpdatedVPN
